import Mathlib

/-!
Verification development for the waggen UI-state exploration tool.

The TypeScript sources are shallowly embedded: classes become structures,
methods become pure functions over those structures, JavaScript Maps and
Sets become insertion-ordered association lists, and every browser or
filesystem interaction (Playwright page queries, Date.now, random ids,
JSON files) is made explicit as a function argument carrying the value
the environment would have produced.  The breadth-first path search is
written with an explicit fuel argument; all safety theorems about it are
proved for every fuel value.
-/

set_option maxHeartbeats 1000000

namespace Waggen

/-! ### Basic data model (src/types/index.ts) -/

/-- ElementType: button | link | input | checkbox | select. -/
inductive ElementType where
  | button | link | input | checkbox | select
deriving DecidableEq, Repr

/-- ActionType: click | input | submit | select | check. -/
inductive ActionType where
  | click | input | submit | select | check
deriving DecidableEq, Repr

/-- The string a given ActionType serializes to in template strings. -/
def ActionType.str : ActionType → String
  | .click => "click"
  | .input => "input"
  | .submit => "submit"
  | .select => "select"
  | .check => "check"

structure InteractiveElement where
  selector : String
  type : ElementType
  label : String
  tagName : String
  attributes : List (String × String)
deriving DecidableEq, Repr

/-- Action; `value` is optional in the source (may be undefined). -/
structure Action where
  type : ActionType
  elementSelector : String
  elementLabel : String
  value : Option String
deriving DecidableEq, Repr

structure AppState where
  id : String
  url : String
  domHash : String
  description : String
  elements : List InteractiveElement
  timestamp : Nat
deriving DecidableEq, Repr

structure StateTransition where
  id : String
  fromStateId : String
  toStateId : String
  action : Action
deriving DecidableEq, Repr

structure ExplorationStep where
  timestamp : Nat
  fromStateId : String
  toStateId : String
  action : Action
deriving DecidableEq, Repr

structure ExplorationQueueItem where
  stateId : String
  action : Action
  pathFromRoot : List String
deriving DecidableEq, Repr

/-- JavaScript `a || b` on an optional string: undefined and the empty
string are falsy, so both fall through to the default. -/
def jsOrStr (v : Option String) (d : String) : String :=
  match v with
  | none => d
  | some s => if s = "" then d else s

/-- JavaScript `a || b` where the default is itself optional
(used for `inputValues[t] || inputValues.text`). -/
def jsOrOptStr (v : Option String) (d : Option String) : Option String :=
  match v with
  | none => d
  | some s => if s = "" then d else some s

/-- First value bound to a key in an association list (JS object lookup). -/
def lookupStr (l : List (String × String)) (k : String) : Option String :=
  match l.find? (fun p => p.1 == k) with
  | none => none
  | some p => some p.2

/-- The common action key `type:selector:value-or-empty` computed by both
StateManager.getActionKey and InteractiveExplorer.getActionKey. -/
def actionKey (a : Action) : String :=
  a.type.str ++ ":" ++ a.elementSelector ++ ":" ++ jsOrStr a.value ""

/-! ### StateGraph (src/graph/StateGraph.ts)

The JS `Map<string, AppState>` keyed by id and iterated in insertion
order is an insertion-ordered association list; the transition array is
a list. -/

structure GraphMetadata where
  appUrl : String
  generatedAt : String
  totalStates : Nat
  totalTransitions : Nat
  explorationDurationMs : Nat
deriving DecidableEq, Repr

structure StateGraph where
  states : List (String × AppState)
  transitions : List StateTransition
  entryStateId : String
  metadata : Option GraphMetadata
deriving DecidableEq, Repr

def emptyStateGraph : StateGraph :=
  { states := [], transitions := [], entryStateId := "", metadata := none }

/-- StateGraph.addState: insert only if the id is not yet a key. -/
def StateGraph.addState (g : StateGraph) (s : AppState) : StateGraph :=
  if g.states.any (fun p => p.1 == s.id) then g
  else { g with states := g.states ++ [(s.id, s)] }

/-- The deduplication quadruple of StateGraph.addTransition. -/
def transQuad (t : StateTransition) : String × String × ActionType × String :=
  (t.fromStateId, t.toStateId, t.action.type, t.action.elementSelector)

/-- StateGraph.addTransition: reject a transition whose
(fromStateId, toStateId, action.elementSelector, action.type) quadruple
matches a stored one. -/
def StateGraph.addTransition (g : StateGraph) (t : StateTransition) : StateGraph :=
  if g.transitions.any (fun u =>
      u.fromStateId == t.fromStateId &&
      u.toStateId == t.toStateId &&
      u.action.elementSelector == t.action.elementSelector &&
      u.action.type == t.action.type) then g
  else { g with transitions := g.transitions ++ [t] }

def StateGraph.setEntryState (g : StateGraph) (stateId : String) : StateGraph :=
  { g with entryStateId := stateId }

def StateGraph.getState (g : StateGraph) (stateId : String) : Option AppState :=
  match g.states.find? (fun p => p.1 == stateId) with
  | none => none
  | some p => some p.2

def StateGraph.getTransitions (g : StateGraph) : List StateTransition :=
  g.transitions

/-- getTransitionsFrom on a plain transition list (shared by the graph
and the interactive explorer, which reads the same list). -/
def transitionsFromL (trans : List StateTransition) (stateId : String) :
    List StateTransition :=
  trans.filter (fun t => t.fromStateId == stateId)

def StateGraph.getTransitionsFrom (g : StateGraph) (stateId : String) :
    List StateTransition :=
  transitionsFromL g.transitions stateId

def StateGraph.getTransitionsTo (g : StateGraph) (stateId : String) :
    List StateTransition :=
  g.transitions.filter (fun t => t.toStateId == stateId)

/-! #### findPathsTo

Both StateGraph.findPathsTo and InteractiveExplorer.findPathsTo run the
same breadth-first loop over `(stateId, path)` queue items; they differ
only in the transition list, the entry id and the default path cap.
The while loop is embedded with a fuel argument; fuel zero returns the
paths collected so far, exactly like running out of loop iterations. -/

structure QueueItem where
  stateId : String
  path : List String
deriving DecidableEq, Repr

/-- `path.join(the two-character arrow)` used as the visited key. -/
def pathKey (p : List String) : String :=
  String.intercalate "->" p

/-- One-to-one embedding of the while loop of findPathsTo.  Each
iteration: stop if the queue is empty or enough paths were collected;
shift one item; a dequeued target is collected; a dequeued path whose
key was already visited is dropped; otherwise every outgoing transition
whose destination is not already on the path (unless it is the target)
is enqueued with the extended path. -/
def findPathsToAux (trans : List StateTransition) (targetStateId : String)
    (maxPaths : Nat) :
    Nat → List QueueItem → List String → List (List String) → List (List String)
  | 0, _, _, allPaths => allPaths
  | _ + 1, [], _, allPaths => allPaths
  | fuel + 1, item :: rest, visited, allPaths =>
    if maxPaths ≤ allPaths.length then allPaths
    else if item.stateId == targetStateId then
      findPathsToAux trans targetStateId maxPaths fuel rest visited
        (allPaths ++ [item.path])
    else if visited.contains (pathKey item.path) then
      findPathsToAux trans targetStateId maxPaths fuel rest visited allPaths
    else
      let outgoing := transitionsFromL trans item.stateId
      let succItems := (outgoing.filter (fun t =>
          !(item.path.contains t.toStateId) || t.toStateId == targetStateId)).map
        (fun t => QueueItem.mk t.toStateId (item.path ++ [t.toStateId]))
      findPathsToAux trans targetStateId maxPaths fuel (rest ++ succItems)
        (visited ++ [pathKey item.path]) allPaths

/-- findPathsTo over an explicit transition list and entry id: the
entry state answers with the single-element path, otherwise the
breadth-first loop runs from the entry. -/
def findPathsToFrom (trans : List StateTransition) (entryStateId : String)
    (targetStateId : String) (maxPaths : Nat) (fuel : Nat) : List (List String) :=
  if targetStateId == entryStateId then [[entryStateId]]
  else findPathsToAux trans targetStateId maxPaths fuel
    [QueueItem.mk entryStateId [entryStateId]] [] []

/-- StateGraph.findPathsTo (default maxPaths = 3 at its call site). -/
def StateGraph.findPathsTo (g : StateGraph) (targetStateId : String)
    (maxPaths : Nat) (fuel : Nat) : List (List String) :=
  findPathsToFrom g.transitions g.entryStateId targetStateId maxPaths fuel

/-- StateGraph.computePaths: empty record when the entry id is the empty
string (falsy), otherwise one entry per stored state, in insertion
order, keyed by state id. -/
def StateGraph.computePaths (g : StateGraph) (fuel : Nat) :
    List (String × List (List String)) :=
  if g.entryStateId == "" then []
  else g.states.map (fun p => (p.2.id, g.findPathsTo p.2.id 3 fuel))

/-- Instrumented twin of findPathsToAux recording the largest queue
length observed at the top of any loop iteration. -/
def findPathsQueuePeakAux (trans : List StateTransition) (targetStateId : String)
    (maxPaths : Nat) :
    Nat → List QueueItem → List String → List (List String) → Nat → Nat
  | 0, _, _, _, peak => peak
  | _ + 1, [], _, _, peak => peak
  | fuel + 1, item :: rest, visited, allPaths, peak =>
    let peak := max peak (item :: rest).length
    if maxPaths ≤ allPaths.length then peak
    else if item.stateId == targetStateId then
      findPathsQueuePeakAux trans targetStateId maxPaths fuel rest visited
        (allPaths ++ [item.path]) peak
    else if visited.contains (pathKey item.path) then
      findPathsQueuePeakAux trans targetStateId maxPaths fuel rest visited
        allPaths peak
    else
      let outgoing := transitionsFromL trans item.stateId
      let succItems := (outgoing.filter (fun t =>
          !(item.path.contains t.toStateId) || t.toStateId == targetStateId)).map
        (fun t => QueueItem.mk t.toStateId (item.path ++ [t.toStateId]))
      findPathsQueuePeakAux trans targetStateId maxPaths fuel (rest ++ succItems)
        (visited ++ [pathKey item.path]) allPaths peak

/-- Peak queue length of a findPathsTo run (non-entry target). -/
def findPathsQueuePeak (trans : List StateTransition) (entryStateId : String)
    (targetStateId : String) (maxPaths : Nat) (fuel : Nat) : Nat :=
  findPathsQueuePeakAux trans targetStateId maxPaths fuel
    [QueueItem.mk entryStateId [entryStateId]] [] [] 1

/-! ### StateManager (src/explorer/StateManager.ts)

The page-derived inputs of captureState (page.url(), the DOM hash
computed in the browser, the generated description, Date.now()) arrive
bundled in a `Snapshot`.  `new URL(url).pathname` is the one external
library call; it is abstracted as an arbitrary `pathname` function
passed to every operation that computes a state key. -/

/-- The values captureState reads from the live page. -/
structure Snapshot where
  url : String
  domHash : String
  description : String
  elements : List InteractiveElement
  timestamp : Nat
deriving DecidableEq, Repr

structure StateManagerS where
  states : List (String × AppState)
  stateCounter : Nat
  exploredActions : List (String × List String)
deriving DecidableEq, Repr

def emptyStateManager : StateManagerS :=
  { states := [], stateCounter := 0, exploredActions := [] }

/-- `String(n).padStart(3, the zero character)`. -/
def padStart3 (n : Nat) : String :=
  let s := toString n
  if s.length ≥ 3 then s
  else String.mk (List.replicate (3 - s.length) '0') ++ s

/-- StateManager.computeStateKey: urlPath and hash joined by a colon. -/
def computeStateKey (pathname : String → String) (url domHash : String) : String :=
  pathname url ++ ":" ++ domHash

/-- The state key of a snapshot. -/
def snapKey (pathname : String → String) (c : Snapshot) : String :=
  computeStateKey pathname c.url c.domHash

/-- StateManager.findStateByKey over the ordered state list: the first
stored state whose own key equals the requested key. -/
def findStateByKeyL (pathname : String → String)
    (states : List (String × AppState)) (stateKey : String) : Option AppState :=
  match states with
  | [] => none
  | p :: rest =>
    if computeStateKey pathname p.2.url p.2.domHash == stateKey then some p.2
    else findStateByKeyL pathname rest stateKey

def StateManagerS.findStateByKey (pathname : String → String)
    (sm : StateManagerS) (stateKey : String) : Option AppState :=
  findStateByKeyL pathname sm.states stateKey

/-- StateManager.captureState: return the first-seen state with the
same key if one exists, otherwise mint a fresh zero-padded id, store the
new state and give it an empty explored-action set. -/
def StateManagerS.captureState (pathname : String → String)
    (sm : StateManagerS) (c : Snapshot) : AppState × StateManagerS :=
  let stateKey := computeStateKey pathname c.url c.domHash
  match sm.findStateByKey pathname stateKey with
  | some existingState => (existingState, sm)
  | none =>
    let state : AppState :=
      { id := "state_" ++ padStart3 (sm.stateCounter + 1)
        url := c.url
        domHash := c.domHash
        description := c.description
        elements := c.elements
        timestamp := c.timestamp }
    (state,
      { states := sm.states ++ [(state.id, state)]
        stateCounter := sm.stateCounter + 1
        exploredActions := sm.exploredActions ++ [(state.id, [])] })

def StateManagerS.getState (sm : StateManagerS) (stateId : String) :
    Option AppState :=
  match sm.states.find? (fun p => p.1 == stateId) with
  | none => none
  | some p => some p.2

def StateManagerS.getAllStates (sm : StateManagerS) : List AppState :=
  sm.states.map (fun p => p.2)

/-- Add a key to a JS Set embedded as a duplicate-free list. -/
def setAdd (l : List String) (k : String) : List String :=
  if l.contains k then l else l ++ [k]

/-- StateManager.markActionExplored: a silent no-op when the state has
no explored-action entry (only captureState creates entries). -/
def StateManagerS.markActionExplored (sm : StateManagerS) (stateId : String)
    (a : Action) : StateManagerS :=
  { sm with exploredActions := sm.exploredActions.map (fun p =>
      if p.1 == stateId then (p.1, setAdd p.2 (actionKey a)) else p) }

def StateManagerS.isActionExplored (sm : StateManagerS) (stateId : String)
    (a : Action) : Bool :=
  match sm.exploredActions.find? (fun p => p.1 == stateId) with
  | none => false
  | some p => p.2.contains (actionKey a)

def StateManagerS.getUnexploredActions (sm : StateManagerS) (stateId : String)
    (actions : List Action) : List Action :=
  actions.filter (fun a => !(sm.isActionExplored stateId a))

/-- A sequence of captureState calls threading the manager, returning
the state produced for each snapshot in order. -/
def captureRun (pathname : String → String) (sm : StateManagerS) :
    List Snapshot → List AppState
  | [] => []
  | c :: cs =>
    let r := sm.captureState pathname c
    r.1 :: captureRun pathname r.2 cs

/-! ### ActionDiscovery.generateActionsForElement
(src/explorer/ActionDiscovery.ts, lines 364-408)

The element-discovery half of ActionDiscovery runs in the browser and is
out of the pure model; the visible elements it produces are carried by
each AppState.  Action generation is pure given the configured input
values. -/

structure ExplorerConfig where
  url : String
  maxStates : Nat
  maxDepth : Nat
  timeout : Nat
  inputValues : List (String × String)
deriving DecidableEq, Repr

/-- generateActionsForElement: one action per element, chosen by the
element type; text inputs read `attributes.type || text` and take
`inputValues[inputType] || inputValues.text` as the value. -/
def generateActionsForElement (cfg : ExplorerConfig)
    (element : InteractiveElement) : List Action :=
  match element.type with
  | .button =>
    [{ type := .click, elementSelector := element.selector,
       elementLabel := element.label, value := none }]
  | .link =>
    [{ type := .click, elementSelector := element.selector,
       elementLabel := element.label, value := none }]
  | .input =>
    let inputType := jsOrStr (lookupStr element.attributes "type") "text"
    let value := jsOrOptStr (lookupStr cfg.inputValues inputType)
      (lookupStr cfg.inputValues "text")
    [{ type := .input, elementSelector := element.selector,
       elementLabel := element.label, value := value }]
  | .checkbox =>
    [{ type := .check, elementSelector := element.selector,
       elementLabel := element.label, value := none }]
  | .select =>
    [{ type := .select, elementSelector := element.selector,
       elementLabel := element.label, value := some "0" }]

/-! ### Autonomous Explorer (Explorer class)

Only captureCurrentState, queueActionsForState and exploreAction touch
the model state; browser navigation and the per-action Playwright calls
are summarised by the optional Snapshot outcome of an execution: `none`
when executeAction returned false or the step threw (nothing after the
failure runs), `some snap` when the action succeeded and the page then
looked like `snap`. -/

structure ExplorerS where
  stateManager : StateManagerS
  stateGraph : StateGraph
  explorationQueue : List ExplorationQueueItem
deriving DecidableEq, Repr

/-- Explorer.captureCurrentState: capture through the StateManager and
insert the resulting state into the graph. -/
def ExplorerS.captureCurrentState (pathname : String → String)
    (ex : ExplorerS) (c : Snapshot) : AppState × ExplorerS :=
  let r := ex.stateManager.captureState pathname c
  (r.1, { ex with stateManager := r.2, stateGraph := ex.stateGraph.addState r.1 })

/-- Explorer.queueActionsForState: push one queue item per unexplored
candidate action of the state, extending the path with the state id. -/
def ExplorerS.queueActionsForState (cfg : ExplorerConfig) (ex : ExplorerS)
    (state : AppState) (pathFromRoot : List String) : ExplorerS :=
  let allActions := state.elements.flatMap (generateActionsForElement cfg)
  let unexploredActions := ex.stateManager.getUnexploredActions state.id allActions
  { ex with explorationQueue := ex.explorationQueue ++
      unexploredActions.map (fun a =>
        ExplorationQueueItem.mk state.id a (pathFromRoot ++ [state.id])) }

/-- Explorer.exploreAction: restore (page-level only), mark the action
explored, then on success capture the resulting state, record the
transition, and enqueue the resulting state when its id differs from
the source state id. -/
def ExplorerS.exploreAction (pathname : String → String) (cfg : ExplorerConfig)
    (ex : ExplorerS) (item : ExplorationQueueItem) (outcome : Option Snapshot) :
    ExplorerS :=
  let ex := { ex with
    stateManager := ex.stateManager.markActionExplored item.stateId item.action }
  match outcome with
  | none => ex
  | some snap =>
    let r := ex.captureCurrentState pathname snap
    let newState := r.1
    let ex := r.2
    let transition : StateTransition :=
      { id := "trans_" ++ toString (ex.stateGraph.getTransitions.length + 1)
        fromStateId := item.stateId
        toStateId := newState.id
        action := item.action }
    let ex := { ex with stateGraph := ex.stateGraph.addTransition transition }
    if newState.id ≠ item.stateId then
      ex.queueActionsForState cfg newState item.pathFromRoot
    else ex

/-! ### InteractiveExplorer (src/explorer/InteractiveExplorer.ts)

The controller state is the mutable fields of the class; `pageReady`
stands for `this.page !== null`.  Browser effects inside executeAction
are summarised by an `ExecOutcome`: the internal execution primitive
returned false, or a later await threw (both leave only the explored
mark behind), or the action succeeded and the page then looked like the
given snapshot, with the given clock value for the history entry. -/

structure AvailableAction where
  id : String
  action : Action
  isExplored : Bool
  isSkipped : Bool
  resultStateId : Option String
deriving DecidableEq, Repr

structure InteractiveS where
  stateManager : StateManagerS
  stateGraph : StateGraph
  currentStateId : String
  entryStateId : String
  pathFromRoot : List String
  skippedActions : List (String × List String)
  explorationHistory : List ExplorationStep
  executionLock : Bool
  pageReady : Bool
deriving DecidableEq, Repr

def InteractiveS.isActionSkipped (ie : InteractiveS) (stateId actKey : String) :
    Bool :=
  match ie.skippedActions.find? (fun p => p.1 == stateId) with
  | none => false
  | some p => p.2.contains actKey

def InteractiveS.getCurrentState (ie : InteractiveS) : Option AppState :=
  ie.stateManager.getState ie.currentStateId

/-- InteractiveExplorer.getAvailableActions: one AvailableAction per
candidate action of the current state, in element order, with the id
`stateId:actionKey` and the explored/skipped/result projections. -/
def InteractiveS.getAvailableActions (cfg : ExplorerConfig) (ie : InteractiveS) :
    List AvailableAction :=
  match ie.getCurrentState with
  | none => []
  | some currentState =>
    currentState.elements.flatMap (fun element =>
      (generateActionsForElement cfg element).map (fun action =>
        let isExplored := ie.stateManager.isActionExplored currentState.id action
        let resultStateId :=
          if isExplored then
            match (ie.stateGraph.getTransitionsFrom currentState.id).find?
                (fun t => t.action.elementSelector == action.elementSelector &&
                  t.action.type == action.type) with
            | some t => some t.toStateId
            | none => none
          else none
        { id := currentState.id ++ ":" ++ actionKey action
          action := action
          isExplored := isExplored
          isSkipped := ie.isActionSkipped currentState.id (actionKey action)
          resultStateId := resultStateId }))

/-- Environment behaviour of one executeAction call after the action is
resolved: the execution primitive failed (returned false), a later
await threw with a message, or everything succeeded and the page then
showed `snap` (with `now` the Date.now() of the history entry). -/
inductive ExecOutcome where
  | failed
  | captureThrew (msg : String)
  | ok (snap : Snapshot) (now : Nat)
deriving DecidableEq, Repr

structure ActionResultPayload where
  success : Bool
  previousStateId : String
  newStateId : String
  isNewState : Bool
  error : Option String
deriving DecidableEq, Repr

/-- InteractiveExplorer.executeAction.  A thrown error is an
`Except.error`; the catch block inside the method converts later
failures into an ok payload with `success := false`.  The lock is taken
and released by the try/finally, so a lock-free call ends lock-free. -/
def InteractiveS.executeAction (pathname : String → String)
    (cfg : ExplorerConfig) (ie : InteractiveS) (actionId : String)
    (outcome : ExecOutcome) : Except String ActionResultPayload × InteractiveS :=
  if ie.executionLock then (.error "Action already in progress", ie)
  else if !ie.pageReady then (.error "Browser not initialized", ie)
  else
    let previousStateId := ie.currentStateId
    match (ie.getAvailableActions cfg).find? (fun a => a.id == actionId) with
    | none =>
      (.ok { success := false, previousStateId := previousStateId,
             newStateId := previousStateId, isNewState := false,
             error := some ("Action not found: " ++ actionId) }, ie)
    | some actionItem =>
      let action := actionItem.action
      let ie1 := { ie with
        stateManager := ie.stateManager.markActionExplored ie.currentStateId action }
      match outcome with
      | .failed =>
        (.ok { success := false, previousStateId := previousStateId,
               newStateId := previousStateId, isNewState := false,
               error := some "Action execution failed" }, ie1)
      | .captureThrew msg =>
        (.ok { success := false, previousStateId := previousStateId,
               newStateId := previousStateId, isNewState := false,
               error := some msg }, ie1)
      | .ok snap now =>
        let r := ie1.stateManager.captureState pathname snap
        let newState := r.1
        let sm := r.2
        let g := ie1.stateGraph.addState newState
        let isNewState := newState.id != previousStateId &&
          !(sm.getAllStates.any (fun s =>
            s.id == newState.id && decide (s.timestamp < newState.timestamp)))
        let transition : StateTransition :=
          { id := "trans_" ++ toString (g.getTransitions.length + 1)
            fromStateId := previousStateId
            toStateId := newState.id
            action := action }
        let g2 := g.addTransition transition
        let ie2 := { ie1 with
          stateManager := sm
          stateGraph := g2
          explorationHistory := ie1.explorationHistory ++
            [⟨now, previousStateId, newState.id, action⟩]
          currentStateId := newState.id
          pathFromRoot := if newState.id != previousStateId then
              ie1.pathFromRoot ++ [newState.id]
            else ie1.pathFromRoot }
        (.ok { success := true, previousStateId := previousStateId,
               newStateId := newState.id, isNewState := isNewState,
               error := none }, ie2)

/-- InteractiveExplorer.skipAction. -/
def InteractiveS.skipAction (ie : InteractiveS) (stateId actKey : String) :
    InteractiveS :=
  if ie.skippedActions.any (fun p => p.1 == stateId) then
    { ie with skippedActions := ie.skippedActions.map (fun p =>
        if p.1 == stateId then (p.1, setAdd p.2 actKey) else p) }
  else
    { ie with skippedActions := ie.skippedActions ++ [(stateId, [actKey])] }

/-- InteractiveExplorer.findPathsTo: the shared search over the live
graph transitions and the controller entry id (default cap 1). -/
def InteractiveS.findPathsTo (ie : InteractiveS) (targetStateId : String)
    (maxPaths : Nat) (fuel : Nat) : List (List String) :=
  findPathsToFrom ie.stateGraph.transitions ie.entryStateId targetStateId
    maxPaths fuel

structure StateUpdatePayloadM where
  currentState : Option AppState
  pathFromRoot : List String
deriving DecidableEq, Repr

def InteractiveS.buildStateUpdatePayload (ie : InteractiveS) :
    StateUpdatePayloadM :=
  { currentState := ie.getCurrentState, pathFromRoot := ie.pathFromRoot }

/-- InteractiveExplorer.jumpToState.  Replaying the recorded actions
touches only the page; the state captured afterwards comes in as
`snap`.  The empty-path throw escapes the try (the finally releases the
lock) before any field or manager mutation. -/
def InteractiveS.jumpToState (pathname : String → String) (ie : InteractiveS)
    (targetStateId : String) (fuel : Nat) (snap : Snapshot) :
    Except String StateUpdatePayloadM × InteractiveS :=
  if ie.executionLock then (.error "Action in progress", ie)
  else if !ie.pageReady then (.error "Browser not initialized", ie)
  else match ie.stateGraph.getState targetStateId with
    | none => (.error ("Unknown state: " ++ targetStateId), ie)
    | some _ =>
      if targetStateId == ie.entryStateId then
        let ie2 := { ie with currentStateId := ie.entryStateId,
                             pathFromRoot := [ie.entryStateId] }
        (.ok ie2.buildStateUpdatePayload, ie2)
      else
        match ie.findPathsTo targetStateId 1 fuel with
        | [] => (.error ("No path found to state: " ++ targetStateId), ie)
        | shortestPath :: _ =>
          let r := ie.stateManager.captureState pathname snap
          let ie2 := { ie with
            stateManager := r.2
            stateGraph := ie.stateGraph.addState r.1
            currentStateId := r.1.id
            pathFromRoot := shortestPath }
          (.ok ie2.buildStateUpdatePayload, ie2)

/-! ### SessionManager (src/session/SessionManager.ts)

A stored payload is whatever JSON.parse produced: every field may be
absent.  File IO is outside the model; `load` is embedded from the
point where the parsed value is in hand, and the two fresh values the
migration can mint (a generated session id and the current ISO
timestamp) come in as arguments. -/

/-- The serialized graph shape (StateGraphData in src/types/index.ts). -/
structure StateGraphData where
  metadata : GraphMetadata
  states : List (String × AppState)
  transitions : List StateTransition
  paths : List (String × List (List String))
  entryStateId : String
deriving DecidableEq, Repr

/-- A parsed session file: any field may be missing. -/
structure RawSession where
  version : Option Nat
  id : Option String
  appUrl : Option String
  createdAt : Option String
  lastUpdatedAt : Option String
  currentStateId : Option String
  entryStateId : Option String
  stateGraph : Option StateGraphData
  skippedActions : Option (List (String × List String))
  explorationHistory : Option (List ExplorationStep)
deriving DecidableEq, Repr

/-- SessionManager.migrate: an absent or zero version is filled in
field by field with JS `||` defaults — except `stateGraph`, which the
cast carries over unchanged; a version above the supported one throws. -/
def SessionManager.migrate (data : RawSession) (freshId nowIso : String) :
    Except String RawSession :=
  if data.version = none ∨ data.version = some 0 then
    .ok { version := some 1
          id := some (jsOrStr data.id freshId)
          appUrl := some (jsOrStr data.appUrl "")
          createdAt := some (jsOrStr data.createdAt nowIso)
          lastUpdatedAt := some nowIso
          currentStateId := some (jsOrStr data.currentStateId "")
          entryStateId := some (jsOrStr data.entryStateId "")
          stateGraph := data.stateGraph
          skippedActions := some (data.skippedActions.getD [])
          explorationHistory := some (data.explorationHistory.getD []) }
  else if 1 < data.version.getD 0 then
    .error ("Session file version " ++ toString (data.version.getD 0) ++
      " is newer than supported version 1")
  else .ok data

/-- SessionManager.load, from the parsed file content onward: a payload
whose version is exactly the current one passes through, anything else
goes through migrate. -/
def SessionManager.load (raw : RawSession) (freshId nowIso : String) :
    Except String RawSession :=
  if raw.version = some 1 then .ok raw
  else SessionManager.migrate raw freshId nowIso

/-! ## Concrete fixtures

DEFAULT_CONFIG from src/types/index.ts, and small graphs, managers and
sessions used to instantiate theorems with hypotheses. -/

def defaultConfig : ExplorerConfig :=
  { url := "http://localhost:3000", maxStates := 100, maxDepth := 10,
    timeout := 30000,
    inputValues := [("text", "Test item"), ("email", "test@example.com"),
      ("password", "password123"), ("number", "42")] }

/-- A pathname extractor for fixtures whose urls all live at the root. -/
def rootPathname : String → String := fun _ => "/"

def clickOn (sel labl : String) : Waggen.Action :=
  { type := .click, elementSelector := sel, elementLabel := labl, value := none }

def submitOn (sel labl : String) : Waggen.Action :=
  { type := .submit, elementSelector := sel, elementLabel := labl, value := none }

/-! ## C5: transition deduplication -/

/-- Number of stored transitions matching a dedup quadruple. -/
def countQuad (l : List StateTransition)
    (q : String × String × ActionType × String) : Nat :=
  (l.filter (fun t => decide (transQuad t = q))).length

theorem addTransition_match_eq (g : StateGraph) (t : StateTransition)
    (h : ∃ u ∈ g.transitions, transQuad u = transQuad t) :
    g.addTransition t = g := by
  obtain ⟨u, hu, hq⟩ := h
  have : g.transitions.any (fun u =>
      u.fromStateId == t.fromStateId &&
      u.toStateId == t.toStateId &&
      u.action.elementSelector == t.action.elementSelector &&
      u.action.type == t.action.type) = true := by
    rw [List.any_eq_true]
    refine ⟨u, hu, ?_⟩
    simp only [transQuad, Prod.mk.injEq] at hq
    simp [hq.1, hq.2.1, hq.2.2.1, hq.2.2.2]
  simp [StateGraph.addTransition, this]

theorem addTransition_countQuad_le (g : StateGraph) (t : StateTransition)
    (q : String × String × ActionType × String)
    (h : countQuad g.transitions q ≤ 1) :
    countQuad (g.addTransition t).transitions q ≤ 1 := by
  unfold StateGraph.addTransition
  split
  · exact h
  · rename_i hnone
    by_cases hq : transQuad t = q
    · have hzero : countQuad g.transitions q = 0 := by
        by_contra hne
        have hmem :
            (g.transitions.filter (fun u => decide (transQuad u = q))) ≠ [] := by
          intro hnil
          exact hne (by simp [countQuad, hnil])
        rcases List.exists_mem_of_ne_nil _ hmem with ⟨u, hu⟩
        have hu1 := (List.mem_filter.mp hu).1
        have hu2 := of_decide_eq_true (List.mem_filter.mp hu).2
        apply hnone
        rw [List.any_eq_true]
        refine ⟨u, hu1, ?_⟩
        have hut : transQuad u = transQuad t := by rw [hq]; exact hu2
        simp only [transQuad, Prod.mk.injEq] at hut
        simp [hut.1, hut.2.1, hut.2.2.1, hut.2.2.2]
      simp only [countQuad] at hzero
      simp only [countQuad, List.filter_append, List.length_append, hzero]
      simp [hq]
    · simp only [countQuad, List.filter_append, List.length_append] at h ⊢
      simpa [hq] using h

theorem foldl_addTransition_countQuad (ts : List StateTransition)
    (g : StateGraph) (q : String × String × ActionType × String)
    (h : countQuad g.transitions q ≤ 1) :
    countQuad ((ts.foldl StateGraph.addTransition g).transitions) q ≤ 1 := by
  induction ts generalizing g with
  | nil => exact h
  | cons t ts ih => exact ih _ (addTransition_countQuad_le g t q h)

/-- C5: a transition whose (fromStateId, toStateId, action.type,
action.elementSelector) quadruple matches a stored one leaves the
transition list unchanged, and however many transitions are inserted
into a graph, at most one stored transition matches any quadruple. -/
theorem c5_transition_dedup :
    (∀ (g : StateGraph) (t : StateTransition),
      (∃ u ∈ g.transitions, transQuad u = transQuad t) →
      g.addTransition t = g) ∧
    (∀ (ts : List StateTransition) (q : String × String × ActionType × String),
      countQuad ((ts.foldl StateGraph.addTransition emptyStateGraph).transitions)
        q ≤ 1) := by
  constructor
  · exact addTransition_match_eq
  · intro ts q
    exact foldl_addTransition_countQuad ts emptyStateGraph q (by
      simp [countQuad, emptyStateGraph])

def tFixture : StateTransition :=
  { id := "trans_1", fromStateId := "state_001", toStateId := "state_002",
    action := clickOn "#b" "B" }

/-- Witness for C5 at a concrete graph: re-inserting the stored
transition is the identity and the count stays one. -/
theorem c5_transition_dedup_witness :
    (emptyStateGraph.addTransition tFixture).addTransition tFixture =
      emptyStateGraph.addTransition tFixture ∧
    countQuad (([tFixture, tFixture].foldl StateGraph.addTransition
      emptyStateGraph).transitions) (transQuad tFixture) ≤ 1 :=
  ⟨c5_transition_dedup.1 (emptyStateGraph.addTransition tFixture) tFixture
      ⟨tFixture, by decide, rfl⟩,
    c5_transition_dedup.2 [tFixture, tFixture] (transQuad tFixture)⟩

/-! ## C8: the mutation lock rejects executeAction with no side effects -/

/-- C8: with the execution lock held, executeAction throws the
in-progress error immediately and the whole controller state — explored
actions, graph, history, currentStateId, pathFromRoot — is returned
exactly as it was. -/
theorem c8_lock_rejects_executeAction (pathname : String → String)
    (cfg : ExplorerConfig) (ie : InteractiveS) (actionId : String)
    (outcome : ExecOutcome) (h : ie.executionLock = true) :
    ie.executeAction pathname cfg actionId outcome =
      (.error "Action already in progress", ie) := by
  simp [InteractiveS.executeAction, h]

def ieLocked : InteractiveS :=
  { stateManager := emptyStateManager, stateGraph := emptyStateGraph,
    currentStateId := "state_001", entryStateId := "state_001",
    pathFromRoot := ["state_001"], skippedActions := [],
    explorationHistory := [], executionLock := true, pageReady := true }

/-- Witness for C8 at a locked controller. -/
theorem c8_lock_rejects_executeAction_witness :
    ieLocked.executeAction rootPathname defaultConfig "state_001:click:#b:"
      .failed = (.error "Action already in progress", ieLocked) :=
  c8_lock_rejects_executeAction rootPathname defaultConfig ieLocked
    "state_001:click:#b:" .failed rfl

/-! ## C2: migration of a version-less session -/

def rawEmptySession : RawSession :=
  { version := none, id := none, appUrl := none, createdAt := none,
    lastUpdatedAt := none, currentStateId := none, entryStateId := none,
    stateGraph := none, skippedActions := none, explorationHistory := none }

/-- C2 counterexample: loading a payload with no version and no stored
graph succeeds, but the stateGraph of the migrated session is still absent —
it is not populated with an empty-graph default, contrary to the claim
that every required field gets a defined default. -/
theorem c2_counterexample :
    SessionManager.load rawEmptySession "session_1" "t0" =
      .ok { version := some 1, id := some "session_1", appUrl := some "",
            createdAt := some "t0", lastUpdatedAt := some "t0",
            currentStateId := some "", entryStateId := some "",
            stateGraph := none, skippedActions := some [],
            explorationHistory := some [] } := by
  rfl

/-- C2 as amended: for a payload whose version is absent or zero, load
never throws and returns the migrated session stamped version 1, with
defined defaults for id, appUrl, createdAt, lastUpdatedAt,
currentStateId, entryStateId, skippedActions and explorationHistory —
while stateGraph is carried over unchanged (and stays absent if it was
absent). -/
theorem c2_migration_defaults (raw : RawSession) (freshId nowIso : String)
    (h : raw.version = none ∨ raw.version = some 0) :
    SessionManager.load raw freshId nowIso =
      .ok { version := some 1
            id := some (jsOrStr raw.id freshId)
            appUrl := some (jsOrStr raw.appUrl "")
            createdAt := some (jsOrStr raw.createdAt nowIso)
            lastUpdatedAt := some nowIso
            currentStateId := some (jsOrStr raw.currentStateId "")
            entryStateId := some (jsOrStr raw.entryStateId "")
            stateGraph := raw.stateGraph
            skippedActions := some (raw.skippedActions.getD [])
            explorationHistory := some (raw.explorationHistory.getD []) } := by
  have hv : raw.version ≠ some 1 := by
    rcases h with h | h <;> simp [h]
  simp [SessionManager.load, SessionManager.migrate, hv, h]

/-- Witness for C2 at the all-absent payload. -/
theorem c2_migration_defaults_witness :
    SessionManager.load rawEmptySession "session_1" "t0" =
      .ok { version := some 1, id := some "session_1", appUrl := some "",
            createdAt := some "t0", lastUpdatedAt := some "t0",
            currentStateId := some "", entryStateId := some "",
            stateGraph := none, skippedActions := some [],
            explorationHistory := some [] } :=
  c2_migration_defaults rawEmptySession "session_1" "t0" (Or.inl rfl)

/-! ## C9: path queries with an absent entry state -/

def stateC9 : AppState :=
  { id := "state_001", url := "http://localhost:3000/", domHash := "aaa",
    description := "A", elements := [], timestamp := 0 }

def transC9 : StateTransition :=
  { id := "trans_1", fromStateId := "X", toStateId := "state_001",
    action := clickOn "#b" "B" }

def gC9 : StateGraph :=
  ((emptyStateGraph.addState stateC9).addTransition transC9).setEntryState "X"

/-- C9 counterexample: an entry id that is set but absent from the
state map is not detected — computePaths runs and even returns a
non-empty path through the nonexistent entry state, rather than empty
results. -/
theorem c9_counterexample :
    gC9.states.any (fun p => p.1 == "X") = false ∧
    gC9.computePaths 50 = [("state_001", [["X", "state_001"]])] := by
  constructor
  · rfl
  · rfl

/-- C9 as amended: only an unset (empty-string) entry id short-circuits
computePaths to the empty record; an absent but non-empty entry id is
not specially handled. -/
theorem c9_empty_entry_empty_paths (g : StateGraph) (fuel : Nat)
    (h : g.entryStateId = "") :
    g.computePaths fuel = [] := by
  simp [StateGraph.computePaths, h]

/-- Witness for C9 at the fresh graph, whose entry id is unset. -/
theorem c9_empty_entry_empty_paths_witness :
    emptyStateGraph.computePaths 50 = [] :=
  c9_empty_entry_empty_paths emptyStateGraph 50 rfl

/-! ## C1: every returned path is a simple entry-to-target path -/

/-- Invariant of every item sitting in the search queue: its path is
non-empty, starts at the entry, ends at the item state, repeats no
state, and contains the target only if the item state is the target. -/
def QueueInv (entryStateId targetStateId : String) (i : QueueItem) : Prop :=
  i.path.head? = some entryStateId ∧
  i.path.getLast? = some i.stateId ∧
  i.path.Nodup ∧
  (i.stateId ≠ targetStateId → targetStateId ∉ i.path)

/-- What C1 asserts of a returned path. -/
def SimplePathSpec (entryStateId targetStateId : String)
    (p : List String) : Prop :=
  p.Nodup ∧ p.head? = some entryStateId ∧ p.getLast? = some targetStateId

theorem head?_append_left {p : List String} {x e : String}
    (h : p.head? = some e) : (p ++ [x]).head? = some e := by
  cases p with
  | nil => simp at h
  | cons a l => simpa using h

theorem findPathsToAux_spec (trans : List StateTransition)
    (entryStateId targetStateId : String) (maxPaths : Nat) :
    ∀ (fuel : Nat) (queue : List QueueItem) (visited : List String)
      (acc : List (List String)),
      (∀ i ∈ queue, QueueInv entryStateId targetStateId i) →
      (∀ p ∈ acc, SimplePathSpec entryStateId targetStateId p) →
      ∀ p ∈ findPathsToAux trans targetStateId maxPaths fuel queue visited acc,
        SimplePathSpec entryStateId targetStateId p := by
  intro fuel
  induction fuel with
  | zero =>
    intro queue visited acc _ hacc p hp
    simp only [findPathsToAux] at hp
    exact hacc p hp
  | succ fuel ih =>
    intro queue visited acc hq hacc p hp
    match queue with
    | [] =>
      simp only [findPathsToAux] at hp
      exact hacc p hp
    | item :: rest =>
      have hrest : ∀ i ∈ rest, QueueInv entryStateId targetStateId i :=
        fun i hi => hq i (List.mem_cons_of_mem _ hi)
      have hitem : QueueInv entryStateId targetStateId item :=
        hq item (List.mem_cons_self _ _)
      simp only [findPathsToAux] at hp
      by_cases hcap : maxPaths ≤ acc.length
      · rw [if_pos hcap] at hp
        exact hacc p hp
      · rw [if_neg hcap] at hp
        by_cases htgt : (item.stateId == targetStateId) = true
        · rw [if_pos htgt] at hp
          refine ih rest visited (acc ++ [item.path]) hrest ?_ p hp
          intro p hp
          rcases List.mem_append.mp hp with hp | hp
          · exact hacc p hp
          · have hpe : p = item.path := by simpa using hp
            subst hpe
            obtain ⟨h1, h2, h3, _⟩ := hitem
            refine ⟨h3, h1, ?_⟩
            rw [h2, eq_of_beq htgt]
        · rw [if_neg htgt] at hp
          by_cases hvis : (visited.contains (pathKey item.path)) = true
          · rw [if_pos hvis] at hp
            exact ih rest visited acc hrest hacc p hp
          · rw [if_neg hvis] at hp
            refine ih _ _ acc ?_ hacc p hp
            intro i hi
            rcases List.mem_append.mp hi with hi | hi
            · exact hrest i hi
            · obtain ⟨t, ht, hit⟩ := List.mem_map.mp hi
              have htf := List.mem_filter.mp ht
              have hcond := htf.2
              obtain ⟨h1, h2, h3, h4⟩ := hitem
              have hne : item.stateId ≠ targetStateId := by
                intro he
                exact htgt (by simp [he])
              have htnotin : targetStateId ∉ item.path := h4 hne
              simp only [Bool.or_eq_true, Bool.not_eq_true'] at hcond
              have hto : t.toStateId ∉ item.path := by
                rcases hcond with hcase | hcase
                · intro hmem
                  simp [List.contains, List.elem_eq_mem] at hcase
                  exact hcase hmem
                · intro hmem
                  rw [eq_of_beq hcase] at hmem
                  exact htnotin hmem
              subst hit
              refine ⟨head?_append_left h1, ?_, ?_, ?_⟩
              · exact List.getLast?_concat _
              · simpa [List.concat_eq_append] using List.Nodup.concat hto h3
              · intro hne2 hmem
                rcases List.mem_append.mp hmem with hmem | hmem
                · exact htnotin hmem
                · have hts : targetStateId = t.toStateId := by simpa using hmem
                  exact hne2 hts.symm

theorem findPathsToFrom_spec (trans : List StateTransition)
    (entryStateId targetStateId : String) (maxPaths fuel : Nat)
    (p : List String)
    (hp : p ∈ findPathsToFrom trans entryStateId targetStateId maxPaths fuel) :
    SimplePathSpec entryStateId targetStateId p := by
  unfold findPathsToFrom at hp
  by_cases he : (targetStateId == entryStateId) = true
  · rw [if_pos he] at hp
    have hpe : p = [entryStateId] := by simpa using hp
    subst hpe
    refine ⟨by simp, by simp, ?_⟩
    simp [eq_of_beq he]
  · rw [if_neg he] at hp
    refine findPathsToAux_spec trans entryStateId targetStateId maxPaths fuel
      _ _ _ ?_ (by simp) p hp
    intro i hi
    have hie : i = QueueItem.mk entryStateId [entryStateId] := by simpa using hi
    subst hie
    refine ⟨by simp, by simp, by simp, ?_⟩
    intro hne hmem
    have : targetStateId = entryStateId := by simpa using hmem
    exact (he (by simp [this])).elim

theorem findPathsToFrom_entry (trans : List StateTransition)
    (entryStateId : String) (maxPaths fuel : Nat) :
    findPathsToFrom trans entryStateId entryStateId maxPaths fuel =
      [[entryStateId]] := by
  simp [findPathsToFrom]

/-- C1: every path returned by the path search — in the graph search
and in the interactive controller search alike — repeats no state id,
begins at the entry state and ends at the target, and the search at the
entry state itself returns exactly the one-element entry path. -/
theorem c1_path_search_simple_paths :
    (∀ (g : StateGraph) (targetStateId : String) (maxPaths fuel : Nat)
        (p : List String), p ∈ g.findPathsTo targetStateId maxPaths fuel →
      p.Nodup ∧ p.head? = some g.entryStateId ∧
        p.getLast? = some targetStateId) ∧
    (∀ (ie : InteractiveS) (targetStateId : String) (maxPaths fuel : Nat)
        (p : List String), p ∈ ie.findPathsTo targetStateId maxPaths fuel →
      p.Nodup ∧ p.head? = some ie.entryStateId ∧
        p.getLast? = some targetStateId) ∧
    (∀ (g : StateGraph) (maxPaths fuel : Nat),
      g.findPathsTo g.entryStateId maxPaths fuel = [[g.entryStateId]]) ∧
    (∀ (ie : InteractiveS) (maxPaths fuel : Nat),
      ie.findPathsTo ie.entryStateId maxPaths fuel = [[ie.entryStateId]]) :=
  ⟨fun g t m f p hp => findPathsToFrom_spec g.transitions g.entryStateId t m f p hp,
   fun ie t m f p hp =>
     findPathsToFrom_spec ie.stateGraph.transitions ie.entryStateId t m f p hp,
   fun g m f => findPathsToFrom_entry g.transitions g.entryStateId m f,
   fun ie m f => findPathsToFrom_entry ie.stateGraph.transitions ie.entryStateId m f⟩

def stateE : AppState :=
  { id := "state_001", url := "http://localhost:3000/", domHash := "eee",
    description := "E", elements := [], timestamp := 0 }

def stateF : AppState :=
  { id := "state_002", url := "http://localhost:3000/", domHash := "fff",
    description := "F", elements := [], timestamp := 1 }

def gPair : StateGraph :=
  (((emptyStateGraph.addState stateE).addState stateF).addTransition
    { id := "trans_1", fromStateId := "state_001", toStateId := "state_002",
      action := clickOn "#go" "Go" }).setEntryState "state_001"

/-- Witness for C1 at a two-state graph: the found entry-to-target path
is simple, starts at the entry and ends at the target. -/
theorem c1_path_search_simple_paths_witness :
    (["state_001", "state_002"] : List String).Nodup ∧
    (["state_001", "state_002"] : List String).head? = some gPair.entryStateId ∧
    (["state_001", "state_002"] : List String).getLast? = some "state_002" :=
  c1_path_search_simple_paths.1 gPair "state_002" 3 20
    ["state_001", "state_002"] (by decide)

/-! ## C4: the cap bounds collected paths but not the queue -/

def gFan : StateGraph :=
  (((((((((emptyStateGraph.addState stateE).addState
    { stateE with id := "state_002", domHash := "a2" }).addState
    { stateE with id := "state_003", domHash := "a3" }).addState
    { stateE with id := "state_004", domHash := "a4" }).addState
    { stateE with id := "state_005", domHash := "a5" }).addTransition
    { id := "trans_1", fromStateId := "state_001", toStateId := "state_002",
      action := clickOn "#b2" "B2" }).addTransition
    { id := "trans_2", fromStateId := "state_001", toStateId := "state_003",
      action := clickOn "#b3" "B3" }).addTransition
    { id := "trans_3", fromStateId := "state_001", toStateId := "state_004",
      action := clickOn "#b4" "B4" }).addTransition
    { id := "trans_4", fromStateId := "state_001", toStateId := "state_005",
      action := clickOn "#b5" "B5" }).setEntryState "state_001"

def gTwin : StateGraph :=
  ((((emptyStateGraph.addState stateE).addState stateF).addTransition
    { id := "trans_1", fromStateId := "state_001", toStateId := "state_002",
      action := clickOn "#t" "T" }).addTransition
    { id := "trans_2", fromStateId := "state_001", toStateId := "state_002",
      action := submitOn "#t" "T" }).setEntryState "state_001"

/-- C4 counterexample: on a graph whose entry has four successors, the
search queue grows to four items — beyond the cap of 3 — and on a graph
with two parallel edges to the target the collected paths are not
distinct, so neither the queue bound nor distinctness holds as claimed. -/
theorem c4_counterexample :
    3 < findPathsQueuePeak gFan.transitions gFan.entryStateId "state_002" 3 50 ∧
    gTwin.findPathsTo "state_002" 3 50 =
      [["state_001", "state_002"], ["state_001", "state_002"]] := by
  constructor
  · decide
  · rfl

theorem findPathsToAux_length_le (trans : List StateTransition)
    (targetStateId : String) (maxPaths : Nat) :
    ∀ (fuel : Nat) (queue : List QueueItem) (visited : List String)
      (acc : List (List String)), acc.length ≤ maxPaths →
      (findPathsToAux trans targetStateId maxPaths fuel queue visited
        acc).length ≤ maxPaths := by
  intro fuel
  induction fuel with
  | zero => intro queue visited acc h; simpa [findPathsToAux] using h
  | succ fuel ih =>
    intro queue visited acc h
    match queue with
    | [] => simpa [findPathsToAux] using h
    | item :: rest =>
      simp only [findPathsToAux]
      by_cases hcap : maxPaths ≤ acc.length
      · rw [if_pos hcap]; exact h
      · rw [if_neg hcap]
        by_cases htgt : (item.stateId == targetStateId) = true
        · rw [if_pos htgt]
          refine ih rest visited (acc ++ [item.path]) ?_
          simp only [List.length_append, List.length_singleton]
          omega
        · rw [if_neg htgt]
          by_cases hvis : (visited.contains (pathKey item.path)) = true
          · rw [if_pos hvis]; exact ih rest visited acc h
          · rw [if_neg hvis]; exact ih _ _ acc h

/-- C4 as amended: the search stops collecting once the cap (default 3)
is reached — the returned path list never exceeds maxPaths — but the
collected paths need not be distinct and the internal work queue is not
bounded by the cap. -/
theorem c4_path_cap (trans : List StateTransition)
    (entryStateId targetStateId : String) (maxPaths fuel : Nat)
    (h : 1 ≤ maxPaths) :
    (findPathsToFrom trans entryStateId targetStateId maxPaths fuel).length ≤
      maxPaths := by
  unfold findPathsToFrom
  split
  · simpa using h
  · exact findPathsToAux_length_le trans targetStateId maxPaths fuel _ _ []
      (by simp)

/-- Witness for C4 at the fan graph with the default cap. -/
theorem c4_path_cap_witness :
    (findPathsToFrom gFan.transitions gFan.entryStateId "state_002" 3 50).length
      ≤ 3 :=
  c4_path_cap gFan.transitions gFan.entryStateId "state_002" 3 50 (by decide)

/-! ## C6: idempotence of state identity -/

theorem findStateByKeyL_append_some (pathname : String → String)
    (l l' : List (String × AppState)) (k : String) (s : AppState)
    (h : findStateByKeyL pathname l k = some s) :
    findStateByKeyL pathname (l ++ l') k = some s := by
  induction l with
  | nil => simp [findStateByKeyL] at h
  | cons p rest ih =>
    rw [findStateByKeyL] at h
    rw [List.cons_append, findStateByKeyL]
    split at h
    · rename_i hk
      rw [if_pos hk]
      exact h
    · rename_i hk
      rw [if_neg hk]
      exact ih h

theorem findStateByKeyL_append_none (pathname : String → String)
    (l l' : List (String × AppState)) (k : String)
    (h : findStateByKeyL pathname l k = none) :
    findStateByKeyL pathname (l ++ l') k = findStateByKeyL pathname l' k := by
  induction l with
  | nil => simp
  | cons p rest ih =>
    rw [findStateByKeyL] at h
    rw [List.cons_append, findStateByKeyL]
    split at h
    · cases h
    · rename_i hk
      rw [if_neg hk]
      exact ih h

theorem captureState_found (pathname : String → String) (sm : StateManagerS)
    (c : Snapshot) (s : AppState)
    (h : sm.findStateByKey pathname (snapKey pathname c) = some s) :
    sm.captureState pathname c = (s, sm) := by
  simp only [snapKey] at h
  simp [StateManagerS.captureState, h]

theorem captureState_states_suffix (pathname : String → String)
    (sm : StateManagerS) (c : Snapshot) :
    ∃ suf, ((sm.captureState pathname c).2).states = sm.states ++ suf := by
  unfold StateManagerS.captureState
  cases h : sm.findStateByKey pathname (computeStateKey pathname c.url c.domHash)
    with
  | none =>
    refine ⟨[("state_" ++ padStart3 (sm.stateCounter + 1),
      { id := "state_" ++ padStart3 (sm.stateCounter + 1), url := c.url,
        domHash := c.domHash, description := c.description,
        elements := c.elements, timestamp := c.timestamp })], ?_⟩
    simp [h]
  | some s => exact ⟨[], by simp [h]⟩

theorem captureState_lookup_self (pathname : String → String)
    (sm : StateManagerS) (c : Snapshot) :
    findStateByKeyL pathname ((sm.captureState pathname c).2).states
      (snapKey pathname c) = some ((sm.captureState pathname c).1) := by
  unfold StateManagerS.captureState
  cases h : sm.findStateByKey pathname (computeStateKey pathname c.url c.domHash)
  · simp only [h, snapKey]
    rw [findStateByKeyL_append_none pathname sm.states _ _ h]
    simp [findStateByKeyL]
  · rename_i s
    simp only [h, snapKey]
    exact h

theorem captureRun_stable (pathname : String → String) (k : String)
    (s : AppState) :
    ∀ (cs : List Snapshot) (sm : StateManagerS),
      findStateByKeyL pathname sm.states k = some s →
      ∀ (j : Nat) (c : Snapshot), cs[j]? = some c → snapKey pathname c = k →
      (captureRun pathname sm cs)[j]? = some s := by
  intro cs
  induction cs with
  | nil => intro sm _ j c hj; simp at hj
  | cons c0 cs ih =>
    intro sm hsm j c hj hkey
    match j with
    | 0 =>
      have hc : c = c0 := by simpa using hj.symm
      subst hc
      have hfound : sm.findStateByKey pathname (snapKey pathname c) = some s := by
        rw [StateManagerS.findStateByKey, hkey]
        exact hsm
      have := captureState_found pathname sm c s hfound
      simp [captureRun, this]
    | j + 1 =>
      obtain ⟨suf, hsuf⟩ := captureState_states_suffix pathname sm c0
      have hnext :
          findStateByKeyL pathname ((sm.captureState pathname c0).2).states k =
            some s := by
        rw [hsuf]
        exact findStateByKeyL_append_some pathname sm.states suf k s hsm
      have hj2 : cs[j]? = some c := by simpa using hj
      simpa [captureRun] using ih _ hnext j c hj2 hkey

theorem captureRun_key_eq (pathname : String → String) :
    ∀ (cs : List Snapshot) (sm : StateManagerS) (i j : Nat) (ci cj : Snapshot),
      cs[i]? = some ci → cs[j]? = some cj →
      snapKey pathname ci = snapKey pathname cj →
      (captureRun pathname sm cs)[i]? = (captureRun pathname sm cs)[j]? := by
  intro cs
  induction cs with
  | nil => intro sm i j ci cj hi; simp at hi
  | cons c0 cs ih =>
    intro sm i j ci cj hi hj hkey
    match i, j with
    | 0, 0 => rfl
    | 0, j + 1 =>
      simp only [List.getElem?_cons_zero, Option.some.injEq] at hi
      subst hi
      have hself := captureState_lookup_self pathname sm c0
      have hj2 : cs[j]? = some cj := by simpa using hj
      have hst := captureRun_stable pathname (snapKey pathname c0)
        ((sm.captureState pathname c0).1) cs ((sm.captureState pathname c0).2)
        hself j cj hj2 hkey.symm
      simp [captureRun, hst]
    | i + 1, 0 =>
      simp only [List.getElem?_cons_zero, Option.some.injEq] at hj
      subst hj
      have hself := captureState_lookup_self pathname sm c0
      have hi2 : cs[i]? = some ci := by simpa using hi
      have hst := captureRun_stable pathname (snapKey pathname c0)
        ((sm.captureState pathname c0).1) cs ((sm.captureState pathname c0).2)
        hself i ci hi2 hkey
      simp [captureRun, hst]
    | i + 1, j + 1 =>
      have hi2 : cs[i]? = some ci := by simpa using hi
      have hj2 : cs[j]? = some cj := by simpa using hj
      simpa [captureRun] using
        ih (sm.captureState pathname c0).2 i j ci cj hi2 hj2 hkey

/-- C6: across any sequence of captures, two snapshots with the same
state key (urlPath and fingerprint) are answered by the same AppState,
and a capture whose key is already known returns the first-seen state
and leaves the manager unchanged (no new state is created). -/
theorem c6_capture_idempotent :
    (∀ (pathname : String → String) (sm : StateManagerS) (cs : List Snapshot)
        (i j : Nat) (ci cj : Snapshot),
      cs[i]? = some ci → cs[j]? = some cj →
      snapKey pathname ci = snapKey pathname cj →
      (captureRun pathname sm cs)[i]? = (captureRun pathname sm cs)[j]?) ∧
    (∀ (pathname : String → String) (sm : StateManagerS) (c : Snapshot)
        (s : AppState),
      sm.findStateByKey pathname (snapKey pathname c) = some s →
      sm.captureState pathname c = (s, sm)) :=
  ⟨fun pathname sm cs i j ci cj hi hj hk =>
      captureRun_key_eq pathname cs sm i j ci cj hi hj hk,
    captureState_found⟩

def snapP : Snapshot :=
  { url := "http://localhost:3000/", domHash := "ppp", description := "P",
    elements := [], timestamp := 1 }

def snapQ : Snapshot :=
  { url := "http://localhost:3000/about", domHash := "ppp", description := "P",
    elements := [], timestamp := 2 }

/-- Witness for C6: two captures with the same key (the fixture
pathname maps both urls to the root path and the fingerprints match)
yield the same state. -/
theorem c6_capture_idempotent_witness :
    (captureRun rootPathname emptyStateManager [snapP, snapQ])[0]? =
      (captureRun rootPathname emptyStateManager [snapP, snapQ])[1]? :=
  c6_capture_idempotent.1 rootPathname emptyStateManager [snapP, snapQ]
    0 1 snapP snapQ rfl rfl rfl

/-! ## C3: when the autonomous engine re-enqueues actions -/

def elemB : InteractiveElement :=
  { selector := "#b", type := .button, label := "B", tagName := "button",
    attributes := [] }

def snapA : Snapshot :=
  { url := "http://localhost:3000/", domHash := "aaa", description := "A",
    elements := [], timestamp := 1 }

def snapB : Snapshot :=
  { url := "http://localhost:3000/", domHash := "bbb", description := "B",
    elements := [elemB], timestamp := 2 }

def emptyExplorer : ExplorerS :=
  { stateManager := emptyStateManager, stateGraph := emptyStateGraph,
    explorationQueue := [] }

def exEntry : ExplorerS :=
  let r := emptyExplorer.captureCurrentState rootPathname snapA
  { r.2 with stateGraph := r.2.stateGraph.setEntryState r.1.id }

def itemX : ExplorationQueueItem :=
  { stateId := "state_001", action := clickOn "#x" "X",
    pathFromRoot := ["state_001"] }

def itemY : ExplorationQueueItem :=
  { stateId := "state_001", action := clickOn "#y" "Y",
    pathFromRoot := ["state_001"] }

/-- The explorer after one action from the entry reached snapB and the
resulting state (state_002) was observed for the first time. -/
def exSeen : ExplorerS :=
  exEntry.exploreAction rootPathname defaultConfig itemX (some snapB)

/-- C3 counterexample: exploring a second action from the entry also
lands on state_002, which was already observed — capturing it creates
no new state — and yet its unexplored actions are enqueued again, so
the enqueue is not guarded by first observation. -/
theorem c3_counterexample :
    exSeen.stateManager.states.any (fun p => p.1 == "state_002") = true ∧
    (exSeen.stateManager.captureState rootPathname snapB).2 =
      exSeen.stateManager ∧
    (exSeen.exploreAction rootPathname defaultConfig itemY
        (some snapB)).explorationQueue.length =
      exSeen.explorationQueue.length + 1 := by
  refine ⟨?_, ?_, ?_⟩
  · rfl
  · rfl
  · rfl

/-- C3 as amended: the engine enqueues the unexplored actions of the
resulting state exactly when the executed action succeeded and the id
of the captured resulting state differs from the source state id — whether the
resulting state was observed before is not checked. -/
theorem c3_enqueue_guard (pathname : String → String) (cfg : ExplorerConfig)
    (ex : ExplorerS) (item : ExplorationQueueItem) (outcome : Option Snapshot)
    (h : (ex.exploreAction pathname cfg item outcome).explorationQueue ≠
      ex.explorationQueue) :
    ∃ snap, outcome = some snap ∧
      ((ex.stateManager.markActionExplored item.stateId
        item.action).captureState pathname snap).1.id ≠ item.stateId := by
  match outcome with
  | none =>
    exact absurd (by simp [ExplorerS.exploreAction]) h
  | some snap =>
    refine ⟨snap, rfl, ?_⟩
    intro heq
    apply h
    simp [ExplorerS.exploreAction, ExplorerS.captureCurrentState, heq]

/-- Witness for C3 as amended, at the counterexample inputs. -/
theorem c3_enqueue_guard_witness :
    ∃ snap, (some snapB = some snap) ∧
      ((exSeen.stateManager.markActionExplored itemY.stateId
        itemY.action).captureState rootPathname snap).1.id ≠ itemY.stateId :=
  c3_enqueue_guard rootPathname defaultConfig exSeen itemY (some snapB)
    (by decide)

/-! ## C7: jumpToState on an unreachable known state -/

/-- C7: an unlocked, initialized controller asked to jump to a known
state for which the capped path search records no path fails with the
path-not-found error, and the whole controller state — in particular
currentStateId and pathFromRoot — is returned exactly as it was. -/
theorem c7_jump_unreachable (pathname : String → String) (ie : InteractiveS)
    (targetStateId : String) (fuel : Nat) (snap : Snapshot) (st : AppState)
    (hlock : ie.executionLock = false) (hpage : ie.pageReady = true)
    (hknown : ie.stateGraph.getState targetStateId = some st)
    (hnopath : ie.findPathsTo targetStateId 1 fuel = []) :
    ie.jumpToState pathname targetStateId fuel snap =
      (.error ("No path found to state: " ++ targetStateId), ie) := by
  have hne : (targetStateId == ie.entryStateId) = false := by
    cases hb : (targetStateId == ie.entryStateId)
    · rfl
    · rw [InteractiveS.findPathsTo, findPathsToFrom, if_pos hb] at hnopath
      cases hnopath
  simp [InteractiveS.jumpToState, hlock, hpage, hknown, hne, hnopath]

def smIsolated : StateManagerS :=
  { states := [("state_001", stateE), ("state_002", stateF)],
    stateCounter := 2,
    exploredActions := [("state_001", []), ("state_002", [])] }

def ieIsolated : InteractiveS :=
  { stateManager := smIsolated,
    stateGraph := ((emptyStateGraph.addState stateE).addState
      stateF).setEntryState "state_001",
    currentStateId := "state_001", entryStateId := "state_001",
    pathFromRoot := ["state_001"], skippedActions := [],
    explorationHistory := [], executionLock := false, pageReady := true }

/-- Witness for C7: state_002 is stored in the graph but no transition
reaches it, and the jump fails leaving the controller untouched. -/
theorem c7_jump_unreachable_witness :
    ieIsolated.jumpToState rootPathname "state_002" 20 snapA =
      (.error ("No path found to state: " ++ "state_002"), ieIsolated) :=
  c7_jump_unreachable rootPathname ieIsolated "state_002" 20 snapA stateF
    rfl rfl rfl (by decide)

/-! ## C10: failed executions keep the explored mark -/

theorem setAdd_contains (l : List String) (k : String) :
    (setAdd l k).contains k = true := by
  unfold setAdd
  cases h : l.contains k
  · simp [List.contains, List.elem_eq_mem]
  · simpa using h

theorem find_map_setAdd (sid k : String) :
    ∀ l : List (String × List String), l.any (fun p => p.1 == sid) = true →
    ∃ q, (l.map (fun p => if p.1 == sid then (p.1, setAdd p.2 k) else p)).find?
      (fun p => p.1 == sid) = some q ∧ q.2.contains k = true := by
  intro l h
  induction l with
  | nil => simp at h
  | cons p rest ih =>
    by_cases hp : (p.1 == sid) = true
    · refine ⟨(p.1, setAdd p.2 k), ?_, setAdd_contains _ _⟩
      rw [List.map_cons, if_pos hp]
      exact List.find?_cons_of_pos _ (by simpa using hp)
    · simp only [List.any_cons, Bool.or_eq_true] at h
      rcases h with h | h
      · exact absurd h hp
      · obtain ⟨q, hq1, hq2⟩ := ih h
        refine ⟨q, ?_, hq2⟩
        rw [List.map_cons, if_neg hp, List.find?_cons_of_neg _ (by simpa using hp)]
        exact hq1

theorem markActionExplored_isExplored (sm : StateManagerS)
    (stateId : String) (a : Waggen.Action)
    (h : sm.exploredActions.any (fun p => p.1 == stateId) = true) :
    (sm.markActionExplored stateId a).isActionExplored stateId a = true := by
  unfold StateManagerS.markActionExplored StateManagerS.isActionExplored
  obtain ⟨q, hq1, hq2⟩ := find_map_setAdd stateId (actionKey a)
    sm.exploredActions h
  simp only [hq1]
  exact hq2

/-- C10: in both controllers the explored mark is taken before the
execution attempt, so a failed execution still leaves the action
permanently marked explored while recording no transition, appending no
exploration step (interactive) and enqueueing nothing (autonomous), and
moving neither currentStateId nor pathFromRoot. -/
theorem c10_failed_execution_keeps_mark :
    (∀ (pathname : String → String) (cfg : ExplorerConfig) (ie : InteractiveS)
        (actionId : String) (actionItem : AvailableAction),
      ie.executionLock = false → ie.pageReady = true →
      (ie.getAvailableActions cfg).find? (fun a => a.id == actionId) =
        some actionItem →
      ie.stateManager.exploredActions.any
        (fun p => p.1 == ie.currentStateId) = true →
      (ie.executeAction pathname cfg actionId .failed).2.stateManager.isActionExplored
          ie.currentStateId actionItem.action = true ∧
      (ie.executeAction pathname cfg actionId .failed).2.stateGraph =
        ie.stateGraph ∧
      (ie.executeAction pathname cfg actionId .failed).2.explorationHistory =
        ie.explorationHistory ∧
      (ie.executeAction pathname cfg actionId .failed).2.currentStateId =
        ie.currentStateId ∧
      (ie.executeAction pathname cfg actionId .failed).2.pathFromRoot =
        ie.pathFromRoot) ∧
    (∀ (pathname : String → String) (cfg : ExplorerConfig) (ex : ExplorerS)
        (item : ExplorationQueueItem),
      ex.stateManager.exploredActions.any (fun p => p.1 == item.stateId) = true →
      (ex.exploreAction pathname cfg item none).stateManager.isActionExplored
          item.stateId item.action = true ∧
      (ex.exploreAction pathname cfg item none).stateGraph = ex.stateGraph ∧
      (ex.exploreAction pathname cfg item none).explorationQueue =
        ex.explorationQueue) := by
  constructor
  · intro pathname cfg ie actionId actionItem hlock hpage hfind hany
    have hres : ie.executeAction pathname cfg actionId .failed =
        (.ok { success := false, previousStateId := ie.currentStateId,
               newStateId := ie.currentStateId, isNewState := false,
               error := some "Action execution failed" },
          { ie with stateManager :=
              (ie.stateManager.markActionExplored ie.currentStateId
                actionItem.action) }) := by
      simp [InteractiveS.executeAction, hlock, hpage, hfind]
    rw [hres]
    exact ⟨markActionExplored_isExplored _ _ _ hany, rfl, rfl, rfl, rfl⟩
  · intro pathname cfg ex item hany
    have hres : ex.exploreAction pathname cfg item none =
        { ex with stateManager :=
            (ex.stateManager.markActionExplored item.stateId item.action) } := by
      simp [ExplorerS.exploreAction]
    rw [hres]
    exact ⟨markActionExplored_isExplored _ _ _ hany, rfl, rfl⟩

def stWithBtn : AppState :=
  { id := "state_001", url := "http://localhost:3000/", domHash := "ccc",
    description := "C", elements := [elemB], timestamp := 0 }

def smWithBtn : StateManagerS :=
  { states := [("state_001", stWithBtn)], stateCounter := 1,
    exploredActions := [("state_001", [])] }

def ieAvail : InteractiveS :=
  { stateManager := smWithBtn,
    stateGraph := (emptyStateGraph.addState stWithBtn).setEntryState "state_001",
    currentStateId := "state_001", entryStateId := "state_001",
    pathFromRoot := ["state_001"], skippedActions := [],
    explorationHistory := [], executionLock := false, pageReady := true }

def availB : AvailableAction :=
  { id := "state_001:click:#b:", action := clickOn "#b" "B",
    isExplored := false, isSkipped := false, resultStateId := none }

/-- Witness for C10 at concrete controllers whose executions fail. -/
theorem c10_failed_execution_keeps_mark_witness :
    ((ieAvail.executeAction rootPathname defaultConfig "state_001:click:#b:"
        .failed).2.stateManager.isActionExplored "state_001" availB.action =
      true) ∧
    ((exSeen.exploreAction rootPathname defaultConfig itemY
        none).explorationQueue = exSeen.explorationQueue) :=
  ⟨((c10_failed_execution_keeps_mark.1 rootPathname defaultConfig ieAvail
      "state_001:click:#b:" availB rfl rfl (by decide) (by decide))).1,
    (c10_failed_execution_keeps_mark.2 rootPathname defaultConfig exSeen itemY
      (by decide)).2.2⟩

end Waggen
